import Mathlib

/-!
Shallow embedding of the rubrics_importer repository.

Sources embedded here:
  * `src/auto_assign_rubrics.py` — SIS-code level classification,
    word-overlap scoring, best-rubric matching, the ADD/REPLACE/SKIP/NO MATCH
    decision logic of `main`, and `apply_rubric`.
  * `src/rubric_import.py` — the selective-migration orchestrator
    `import_selected_rubrics` and the batch loop of `main`.

Network reads are modelled by explicit environment records that supply the
values the collaborator (the Canvas API) would return; network writes are
recorded in the results so that theorems can speak about which mutating
calls were issued.  Python strings are modelled as Lean `String` with
ASCII-faithful `lower`/`strip`; Python `set` becomes `Finset String`;
Python `dict` insertion semantics (first position, last value wins) are
modelled explicitly.
-/

/-- Python `s.lower()` restricted to ASCII, applied characterwise
(`Char.toLower` lowers exactly the basic latin letters, which is the ASCII
fragment of Python's behaviour). -/
def pyLower (s : String) : String :=
  String.mk (s.data.map Char.toLower)

/-- Python `s.strip()`: remove leading and trailing whitespace. -/
def pyStrip (s : String) : String :=
  String.mk (((s.data.dropWhile Char.isWhitespace).reverse.dropWhile Char.isWhitespace).reverse)

/-- Accumulator worker for `alphaTokens`: `acc` holds the current
alphabetic run, reversed. -/
def alphaTokensAux : List Char → List Char → List String
  | [], acc => if acc.isEmpty then [] else [String.mk acc.reverse]
  | c :: rest, acc =>
    if c.isAlpha then
      alphaTokensAux rest (c :: acc)
    else if acc.isEmpty then
      alphaTokensAux rest []
    else
      String.mk acc.reverse :: alphaTokensAux rest []

/-- Python `re.findall(r"[A-Za-z]+", s)`: the maximal runs of ASCII
alphabetic characters, in order; non-alphabetic characters separate runs. -/
def alphaTokens (cs : List Char) : List String :=
  alphaTokensAux cs []

/-- `word_overlap` from `src/auto_assign_rubrics.py` (lines 63-67):
`len(set(findall([A-Za-z]+, a.lower())) & set(findall([A-Za-z]+, b.lower())))`. -/
def word_overlap (a b : String) : Nat :=
  ((alphaTokens (pyLower a).data).toFinset ∩ (alphaTokens (pyLower b).data).toFinset).card

/-- Is the first list a contiguous sublist of the second (Python's
`needle in hay` on strings)? -/
def listInfix (needle : List Char) : List Char → Bool
  | [] => needle.isEmpty
  | c :: rest => needle.isPrefixOf (c :: rest) || listInfix needle rest

/-- Python `needle in hay` substring test. -/
def strContains (needle hay : String) : Bool :=
  listInfix needle.data hay.data

/-- Numeric value of an ASCII digit character. -/
def digitVal (c : Char) : Nat := c.toNat - 48

/-- Does the window at the head of the list match the fixed-shape pattern
`[A-Z]{4}(\d{3})-`?  If so return the three-digit group. -/
def codeAt : List Char → Option Nat
  | a :: b :: c :: d :: x :: y :: z :: w :: _ =>
    if a.isUpper && b.isUpper && c.isUpper && d.isUpper
        && x.isDigit && y.isDigit && z.isDigit && w == '-' then
      some (100 * digitVal x + 10 * digitVal y + digitVal z)
    else none
  | _ => none

/-- `re.search` for the fixed-length pattern: the leftmost window that
matches wins. -/
def searchCode : List Char → Option Nat
  | [] => none
  | c :: rest =>
    match codeAt (c :: rest) with
    | some n => some n
    | none => searchCode rest

/-- `numeric_code_from_sis` from `src/auto_assign_rubrics.py` (lines 57-60):
`re.search(r"[A-Z]{4}(\d{3})-", sis_course_id)`, returning the captured
three-digit group as a number. -/
def numeric_code_from_sis (s : String) : Option Nat :=
  searchCode s.data

/-- The UG/PG course level of the spec's data model. -/
inductive Level
  | UG
  | PG
  deriving DecidableEq, Repr

/-- `level = "PG" if code and code > 400 else "UG"` from
`guess_best_rubric` (line 73).  Python truthiness of `code` is the
`code != 0` conjunct (it never changes the outcome since `0 > 400` is
false, but it is kept to mirror the source). -/
def levelOf (sis : String) : Level :=
  match numeric_code_from_sis sis with
  | some code => if code != 0 && 400 < code then Level.PG else Level.UG
  | none => Level.UG

/-- The substring used to restrict the rubric pool for a level (line 76). -/
def levelMarker : Level → String
  | Level.PG => "Postgraduate"
  | Level.UG => "Undergraduate"

/-- A Canvas rubric as consumed by the matcher: title and id. -/
structure Rubric where
  title : String
  id : Nat
  deriving DecidableEq, Repr

/-- The level-restricted rubric pool of `guess_best_rubric` (lines 74-77). -/
def rubricPoolFor (level : Level) (rubrics : List Rubric) : List Rubric :=
  rubrics.filter (fun r => strContains (levelMarker level) r.title)

/-- The strict order induced by the Python sort key
`(-overlap, title.lower())` of `guess_best_rubric` (line 82):
`r1` sorts strictly before `r2`. -/
def keyLT (name : String) (r1 r2 : Rubric) : Prop :=
  word_overlap name r2.title < word_overlap name r1.title ∨
    (word_overlap name r1.title = word_overlap name r2.title ∧
      pyLower r1.title < pyLower r2.title)

instance (name : String) (r1 r2 : Rubric) : Decidable (keyLT name r1 r2) := by
  unfold keyLT
  exact inferInstance

/-- The head of a stable sort by `keyLT`: walk the list keeping the current
best, replacing it only on a strict key improvement, so the earliest
minimal-key element wins — exactly `scores.sort(key=...); scores[0]`. -/
def chooseBest (name : String) (best : Rubric) : List Rubric → Rubric
  | [] => best
  | r :: rest => chooseBest name (if keyLT name r best then r else best) rest

/-- `guess_best_rubric` from `src/auto_assign_rubrics.py` (lines 70-83). -/
def guess_best_rubric (assignmentName : String) (rubrics : List Rubric) (sis : String) :
    Option Rubric :=
  match rubricPoolFor (levelOf sis) rubrics with
  | [] => none
  | r :: rs => some (chooseBest assignmentName r rs)

/-- The decision kinds of the classifier. -/
inductive Decision
  | ADD
  | REPLACE
  | SKIP
  | NO_MATCH
  deriving DecidableEq, Repr

/-- The inline decision classifier of `main` in `src/auto_assign_rubrics.py`
(lines 164-176): no candidate ⇒ NO_MATCH; empty current title ⇒ ADD; else
REPLACE when `word_overlap(current, best.title) >= threshold`, SKIP
otherwise.  The second component is the overlap value the code reports
(`overlap` stays 0 on the NO_MATCH and ADD paths). -/
def classify (currentTitle : String) (best : Option Rubric) (threshold : Int) :
    Decision × Nat :=
  match best with
  | none => (Decision.NO_MATCH, 0)
  | some b =>
    if currentTitle = "" then
      (Decision.ADD, 0)
    else
      let ov := word_overlap currentTitle b.title
      (if threshold ≤ (ov : Int) then Decision.REPLACE else Decision.SKIP, ov)

/-- A Canvas assignment as consumed by the decision loop.  The two optional
fields model `rubric_settings.get("title")` and
`rubric_settings.get("rubric_title")`. -/
structure Assignment where
  name : String
  id : Nat
  settingsTitle : Option String
  settingsRubricTitle : Option String
  deriving DecidableEq, Repr

/-- Python `x or y or ""` on two optional strings: the first truthy
(present and non-empty) value, else `""` (lines 158-162). -/
def pyFirstTruthy (x y : Option String) : String :=
  match x with
  | some s =>
    if s ≠ "" then s
    else
      match y with
      | some t => if t ≠ "" then t else ""
      | none => ""
  | none =>
    match y with
    | some t => if t ≠ "" then t else ""
    | none => ""

/-- One row of the decision log CSV (lines 183-190); `decision` is the
string literal the code writes. -/
structure DecisionRow where
  sis_course_id : String
  assignment : String
  current_rubric : String
  suggested_rubric : String
  overlap : Nat
  decision : String
  deriving DecidableEq, Repr

/-- The per-assignment body of the decision loop in `main`
(lines 156-190): returns the decision-log row appended for this
assignment, or `none` when `guess_best_rubric` found no candidate (the
code prints a warning and `continue`s before the append). -/
def processAssignment (sis : String) (rubrics : List Rubric) (threshold : Int)
    (a : Assignment) : Option DecisionRow :=
  let current := pyFirstTruthy a.settingsTitle a.settingsRubricTitle
  match guess_best_rubric a.name rubrics sis with
  | none => none
  | some best =>
    let bestTitle := best.title
    if current = "" then
      some ⟨sis, a.name, current, if bestTitle = "" then "" else bestTitle, 0, "ADD"⟩
    else
      let ov := word_overlap current bestTitle
      some ⟨sis, a.name, current, if bestTitle = "" then "" else bestTitle, ov,
        if threshold ≤ (ov : Int) then "REPLACE" else "SKIP"⟩

/-- The title-to-id lookup `rubric_map = {r["title"]: r["id"]}` (line 144);
Python dict comprehension keeps the last value for a duplicated key. -/
def rubricMap (rubrics : List Rubric) (title : String) : Option Nat :=
  (rubrics.reverse.find? (fun r => r.title = title)).map Rubric.id

/-- `apply_rubric` from `src/auto_assign_rubrics.py` (lines 86-110).
`postOk` tells whether the POST would return 200/201.  Result:
(success reported, whether a mutating POST was issued). -/
def apply_rubric (postOk : Bool) (dry_run : Bool) : Bool × Bool :=
  if dry_run then (true, false) else (postOk, true)

/-- The decision loop of `main` over a list of assignments
(lines 156-202): returns the decision-log rows in order together with the
list of `(assignment id, rubric id)` pairs actually POSTed.
`apply_rubric` is invoked for ADD/REPLACE rows whose suggested title is
truthy and resolves in `rubricMap`; under `dryRun` it issues no POST. -/
def runAssignments (sis : String) (rubrics : List Rubric) (threshold : Int)
    (dryRun : Bool) : List Assignment → List DecisionRow × List (Nat × Nat)
  | [] => ([], [])
  | a :: rest =>
    let tail := runAssignments sis rubrics threshold dryRun rest
    match processAssignment sis rubrics threshold a with
    | none => tail
    | some row =>
      if (row.decision = "ADD" ∨ row.decision = "REPLACE") ∧ row.suggested_rubric ≠ "" then
        match rubricMap rubrics row.suggested_rubric with
        | some rid =>
          if dryRun then (row :: tail.1, tail.2)
          else (row :: tail.1, (a.id, rid) :: tail.2)
        | none => (row :: tail.1, tail.2)
      else (row :: tail.1, tail.2)

/-- One selectable item of a content migration's `selective_data` listing:
a title and the opaque copy-parameter key (`item["property"]`). -/
structure MigItem where
  title : String
  property : String
  deriving DecidableEq, Repr

/-- Environment of one `import_selected_rubrics` call: everything the
Canvas collaborator would answer.  `targetRubricsBefore` is the target
course's rubric list as observable before the migration-creation POST;
`targetRubricsAfterCreate` is the (possibly different) list observable
afterwards — the source code only ever reads the former, because
`get_rubrics` runs as Step 0. -/
structure MigEnv where
  targetRubricsBefore : List Rubric
  targetRubricsAfterCreate : List Rubric
  createOk : Bool
  listOk : Bool
  items : List MigItem
  triggerOk : Bool
  progressUrl : Option String
  pollStates : List String
  deriving DecidableEq, Repr

/-- Terminal outcome labels of `import_selected_rubrics`; each early
`return` of the source prints a distinct message. -/
inductive MigOutcome
  | createFailed
  | noItems
  | noMatches
  | allExisting
  | dryRunStop
  | triggerFailed
  | polled (finalState : Option String)
  | firedForgot
  | noProgressUrl
  deriving DecidableEq, Repr

/-- Result of one `import_selected_rubrics` call: the idempotency snapshot,
the surviving (new, matching) items, the copy-parameter payload actually
sent (empty when the trigger PUT was never issued), whether the trigger
PUT was issued, and the outcome label. -/
structure MigResult where
  snapshot : Finset String
  newRubrics : List MigItem
  copyParams : List (String × String)
  triggerCalled : Bool
  outcome : MigOutcome
  deriving DecidableEq

/-- Step 0 of `import_selected_rubrics` (lines 66-68):
`existing_titles = {r["title"].strip().lower() for r in target_rubrics}`. -/
def snapshotOf (rubrics : List Rubric) : Finset String :=
  (rubrics.map (fun r => pyLower (pyStrip r.title))).toFinset

/-- The substring filter of Step 2 (lines 95-98):
`rubric_match.lower() in item["title"].lower()`. -/
def matchingItems (rubricMatch : String) (items : List MigItem) : List MigItem :=
  items.filter (fun it => strContains (pyLower rubricMatch) (pyLower it.title))

/-- Step 3 (lines 104-108): drop items whose normalised title is already in
the snapshot: `m["title"].strip().lower() not in existing_titles`. -/
def newItems (snapshot : Finset String) (matching : List MigItem) : List MigItem :=
  matching.filter (fun it => pyLower (pyStrip it.title) ∉ snapshot)

/-- Python dict insertion: a repeated key keeps its first position and
takes the last value. -/
def pyDictInsert (acc : List (String × String)) (kv : String × String) :
    List (String × String) :=
  if acc.any (fun p => p.1 = kv.1) then
    acc.map (fun p => if p.1 = kv.1 then (p.1, kv.2) else p)
  else acc ++ [kv]

/-- A Python dict built from a list of pairs. -/
def pyDict (pairs : List (String × String)) : List (String × String) :=
  pairs.foldl pyDictInsert []

/-- Step 4 (line 123): `copy_params = {m["property"]: 1 for m in new_rubrics}`.
`requests` form-encodes the integer flag `1` as the string "1" on the wire. -/
def copyParamsOf (newRubrics : List MigItem) : List (String × String) :=
  pyDict (newRubrics.map (fun it => (it.property, "1")))

/-- Python truthiness of the optional `progress_url` (line 135): present
and non-empty. -/
def pyTruthyOpt : Option String → Bool
  | some s => s ≠ ""
  | none => false

/-- `wait_for_completion` (lines 44-57) abstracted over the sequence of
polled workflow states: the first terminal state, if the sequence ever
reaches one. -/
def findTerminal (states : List String) : Option String :=
  states.find? (fun s => s == "completed" || s == "failed")

/-- `import_selected_rubrics` from `src/rubric_import.py` (lines 61-140).
`Except.error ()` models the uncaught `r.raise_for_status()` exception of
the item-listing step (line 88); every other failure is an ordinary early
`return` (`Except.ok` with the corresponding outcome label). -/
def import_selected_rubrics (env : MigEnv) (rubric_match : String)
    (dry_run no_wait : Bool) : Except Unit MigResult :=
  let existing := snapshotOf env.targetRubricsBefore
  if env.createOk = false then
    Except.ok ⟨existing, [], [], false, MigOutcome.createFailed⟩
  else if env.listOk = false then
    Except.error ()
  else if env.items = [] then
    Except.ok ⟨existing, [], [], false, MigOutcome.noItems⟩
  else
    let matching := matchingItems rubric_match env.items
    if matching = [] then
      Except.ok ⟨existing, [], [], false, MigOutcome.noMatches⟩
    else
      let newRubrics := newItems existing matching
      if newRubrics = [] then
        Except.ok ⟨existing, [], [], false, MigOutcome.allExisting⟩
      else if dry_run then
        Except.ok ⟨existing, newRubrics, [], false, MigOutcome.dryRunStop⟩
      else
        let copyParams := copyParamsOf newRubrics
        if env.triggerOk = false then
          Except.ok ⟨existing, newRubrics, copyParams, true, MigOutcome.triggerFailed⟩
        else if pyTruthyOpt env.progressUrl && !no_wait then
          Except.ok ⟨existing, newRubrics, copyParams, true,
            MigOutcome.polled (findTerminal env.pollStates)⟩
        else if no_wait then
          Except.ok ⟨existing, newRubrics, copyParams, true, MigOutcome.firedForgot⟩
        else
          Except.ok ⟨existing, newRubrics, copyParams, true, MigOutcome.noProgressUrl⟩

/-- The batch loop of `main` in `src/rubric_import.py` (lines 165-177).
Each course unit is `none` when `find_course_by_sis_id` failed (the loop
`continue`s) or `some env` otherwise.  There is no exception handler in
the loop, so an `Except.error` from `import_selected_rubrics` aborts the
whole batch: no result is produced for any later course. -/
def runBatch (rubric_match : String) (dry_run no_wait : Bool) :
    List (Option MigEnv) → Except Unit (List (Option MigResult))
  | [] => Except.ok []
  | none :: rest =>
    (runBatch rubric_match dry_run no_wait rest).map (fun l => none :: l)
  | some env :: rest =>
    match import_selected_rubrics env rubric_match dry_run no_wait with
    | Except.error e => Except.error e
    | Except.ok res =>
      (runBatch rubric_match dry_run no_wait rest).map (fun l => some res :: l)

/-- The sort key never orders a rubric strictly before itself. -/
theorem keyLT_irrefl (name : String) (r : Rubric) : ¬ keyLT name r r := by
  unfold keyLT
  simp

/-- Unpacking the negation of the strict sort order: not-better means
lower-or-equal score, and on equal scores a lowercased title that is not
smaller. -/
theorem not_keyLT_iff {name : String} {a b : Rubric} :
    ¬ keyLT name a b ↔
      (word_overlap name a.title ≤ word_overlap name b.title ∧
        (word_overlap name a.title = word_overlap name b.title →
          pyLower b.title ≤ pyLower a.title)) := by
  unfold keyLT
  constructor
  · intro h
    refine ⟨?_, ?_⟩
    · by_contra hlt
      exact h (Or.inl (by omega))
    · intro he
      by_contra ht
      exact h (Or.inr ⟨he, lt_of_not_le ht⟩)
  · rintro ⟨hle, him⟩ (h | ⟨he, ht⟩)
    · omega
    · exact absurd ht (not_lt_of_le (him he))

/-- Transitivity of the strict sort order. -/
theorem keyLT_trans {name : String} {a b c : Rubric}
    (h1 : keyLT name a b) (h2 : keyLT name b c) : keyLT name a c := by
  unfold keyLT at h1 h2 ⊢
  rcases h1 with h1 | ⟨e1, t1⟩
  · rcases h2 with h2 | ⟨e2, t2⟩
    · exact Or.inl (by omega)
    · exact Or.inl (by omega)
  · rcases h2 with h2 | ⟨e2, t2⟩
    · exact Or.inl (by omega)
    · exact Or.inr ⟨by omega, lt_trans t1 t2⟩

/-- Negative transitivity: if neither step improves the key, the
composition does not either. -/
theorem not_keyLT_trans {name : String} {a b c : Rubric}
    (h1 : ¬ keyLT name a b) (h2 : ¬ keyLT name b c) : ¬ keyLT name a c := by
  rw [not_keyLT_iff] at h1 h2 ⊢
  obtain ⟨s1, t1⟩ := h1
  obtain ⟨s2, t2⟩ := h2
  refine ⟨le_trans s1 s2, fun he => ?_⟩
  have e1 : word_overlap name a.title = word_overlap name b.title := by omega
  have e2 : word_overlap name b.title = word_overlap name c.title := by omega
  exact le_trans (t2 e2) (t1 e1)

/-- The fold `chooseBest` returns a member of the candidate list that no
candidate strictly precedes in the sort order — the head of the stable
sort the source computes. -/
theorem chooseBest_spec (name : String) :
    ∀ (rest : List Rubric) (best : Rubric),
      chooseBest name best rest ∈ best :: rest ∧
        ∀ r ∈ best :: rest, ¬ keyLT name r (chooseBest name best rest) := by
  intro rest
  induction rest with
  | nil =>
    intro best
    refine ⟨by simp [chooseBest], ?_⟩
    intro r hr
    simp only [List.mem_singleton] at hr
    subst hr
    simpa [chooseBest] using keyLT_irrefl name r
  | cons r rs ih =>
    intro best
    have hstep : chooseBest name best (r :: rs) =
        chooseBest name (if keyLT name r best then r else best) rs := rfl
    by_cases h : keyLT name r best
    · rw [hstep, if_pos h]
      obtain ⟨hmem, hmin⟩ := ih r
      refine ⟨?_, ?_⟩
      · rcases List.mem_cons.mp hmem with h1 | h1
        · simp [h1]
        · simp [h1]
      · intro x hx
        rcases List.mem_cons.mp hx with rfl | hx
        · intro hc
          exact hmin r (List.mem_cons_self r rs) (keyLT_trans h hc)
        · exact hmin x hx
    · rw [hstep, if_neg h]
      obtain ⟨hmem, hmin⟩ := ih best
      refine ⟨?_, ?_⟩
      · rcases List.mem_cons.mp hmem with h1 | h1
        · simp [h1]
        · simp [h1]
      · intro x hx
        rcases List.mem_cons.mp hx with h1 | hx
        · subst h1
          exact hmin x (List.mem_cons_self x rs)
        · rcases List.mem_cons.mp hx with h1 | hx
          · subst h1
            exact not_keyLT_trans h (hmin best (List.mem_cons_self best rs))
          · exact hmin x (List.mem_cons_of_mem best hx)

/-- `guess_best_rubric` returns `none` exactly when the level-restricted
pool is empty. -/
theorem guess_best_eq_none_iff (name : String) (rubrics : List Rubric) (sis : String) :
    guess_best_rubric name rubrics sis = none ↔
      rubricPoolFor (levelOf sis) rubrics = [] := by
  unfold guess_best_rubric
  cases h : rubricPoolFor (levelOf sis) rubrics <;> simp

/-- A returned rubric is a pool member that no pool member strictly
precedes in the sort order. -/
theorem guess_best_spec_some {name : String} {rubrics : List Rubric} {sis : String}
    {r : Rubric} (h : guess_best_rubric name rubrics sis = some r) :
    r ∈ rubricPoolFor (levelOf sis) rubrics ∧
      ∀ x ∈ rubricPoolFor (levelOf sis) rubrics, ¬ keyLT name x r := by
  unfold guess_best_rubric at h
  cases hp : rubricPoolFor (levelOf sis) rubrics with
  | nil => rw [hp] at h; exact absurd h (by simp)
  | cons p ps =>
    rw [hp] at h
    simp only [Option.some.injEq] at h
    obtain ⟨hmem, hmin⟩ := chooseBest_spec name ps p
    subst h
    exact ⟨hp ▸ hmem, fun x hx => hmin x (hp ▸ hx)⟩

/-- Counting lemma: the cardinality of the intersection of the `toFinset`s
of two lists is the number of distinct elements of the first that occur in
the second. -/
theorem toFinset_inter_card_eq (A B : List String) :
    (A.toFinset ∩ B.toFinset).card = (A.dedup.filter (fun w => w ∈ B)).length := by
  have h1 : (A.dedup.filter (fun w => decide (w ∈ B))).Nodup := A.nodup_dedup.filter _
  rw [← List.toFinset_card_of_nodup h1]
  congr 1
  ext w
  simp [List.mem_toFinset, List.mem_filter, List.mem_dedup, Finset.mem_inter]

/-- Inversion for successful runs of `import_selected_rubrics`: the
snapshot always comes from the pre-create rubric list; a run that never
issued the trigger PUT sent no payload; a run that issued it was live
(not dry), its surviving items are exactly the substring-matched items
minus the already-existing ones, that list is non-empty, and the payload
is the dict built from it; and every surviving item always comes from the
match-then-dedup filter chain. -/
theorem import_ok_fields (env : MigEnv) (m : String) (dry nw : Bool) (res : MigResult)
    (h : import_selected_rubrics env m dry nw = Except.ok res) :
    res.snapshot = snapshotOf env.targetRubricsBefore ∧
    (res.triggerCalled = false → res.copyParams = []) ∧
    (res.triggerCalled = true →
      dry = false ∧
      res.newRubrics = newItems (snapshotOf env.targetRubricsBefore) (matchingItems m env.items) ∧
      res.newRubrics ≠ [] ∧
      res.copyParams = copyParamsOf res.newRubrics) ∧
    (∀ it ∈ res.newRubrics,
      it ∈ newItems (snapshotOf env.targetRubricsBefore) (matchingItems m env.items)) := by
  simp only [import_selected_rubrics] at h
  split_ifs at h with h1 h2 h3 h4 h5 h6 h7 h8 h9 <;>
    (simp only [Except.ok.injEq] at h
     subst h
     refine ⟨rfl, ?_, ?_, ?_⟩ <;> simp_all)

/-- Keys of a Python dict built by left fold: a key occurs in the dict iff
it occurs in the accumulator or in the remaining input pairs. -/
theorem mem_foldl_pyDictInsert_keys (l : List (String × String))
    (acc : List (String × String)) (k : String) :
    k ∈ (l.foldl pyDictInsert acc).map Prod.fst ↔
      k ∈ acc.map Prod.fst ∨ k ∈ l.map Prod.fst := by
  induction l generalizing acc with
  | nil => simp
  | cons kv rest ih =>
    rw [List.foldl_cons, ih]
    have hins : k ∈ (pyDictInsert acc kv).map Prod.fst ↔
        k ∈ acc.map Prod.fst ∨ k = kv.1 := by
      unfold pyDictInsert
      by_cases hany : acc.any (fun p => p.1 = kv.1)
      · rw [if_pos hany]
        have hmapfst : ((acc.map (fun p => if p.1 = kv.1 then (p.1, kv.2) else p)).map
            Prod.fst) = acc.map Prod.fst := by
          rw [List.map_map]
          apply List.map_congr_left
          intro p _
          by_cases hp : p.1 = kv.1 <;> simp [hp]
        rw [hmapfst]
        obtain ⟨p, hpmem, hpk⟩ := List.any_eq_true.mp hany
        constructor
        · exact Or.inl
        · rintro (hk | hk)
          · exact hk
          · subst hk
            exact List.mem_map.mpr ⟨p, hpmem, by simpa using hpk⟩
      · rw [if_neg hany]
        simp
    rw [hins]
    simp only [List.map_cons, List.mem_cons]
    tauto

/-- A key occurs in a Python dict iff some input pair carries it. -/
theorem mem_pyDict_keys (l : List (String × String)) (k : String) :
    k ∈ (pyDict l).map Prod.fst ↔ k ∈ l.map Prod.fst := by
  unfold pyDict
  rw [mem_foldl_pyDictInsert_keys]
  simp

/-- If every value of the accumulator and of the input pairs is `v`, every
value of the folded dict is `v`. -/
theorem foldl_pyDictInsert_values (l : List (String × String))
    (acc : List (String × String)) (v : String)
    (hacc : ∀ p ∈ acc, p.2 = v) (hl : ∀ p ∈ l, p.2 = v) :
    ∀ p ∈ l.foldl pyDictInsert acc, p.2 = v := by
  induction l generalizing acc with
  | nil => simpa using hacc
  | cons kv rest ih =>
    rw [List.foldl_cons]
    refine ih _ ?_ (fun p hp => hl p (List.mem_cons_of_mem kv hp))
    intro p hp
    unfold pyDictInsert at hp
    by_cases hany : acc.any (fun q => q.1 = kv.1)
    · rw [if_pos hany] at hp
      obtain ⟨q, hq, hqe⟩ := List.mem_map.mp hp
      by_cases hqk : q.1 = kv.1
      · rw [if_pos hqk] at hqe
        rw [← hqe]
        exact hl kv (List.mem_cons_self kv rest)
      · rw [if_neg hqk] at hqe
        rw [← hqe]
        exact hacc q hq
    · rw [if_neg hany] at hp
      rcases List.mem_append.mp hp with hp | hp
      · exact hacc p hp
      · simp only [List.mem_singleton] at hp
        subst hp
        exact hl p (List.mem_cons_self p rest)

/-- Every value of a Python dict comes from a constant-value input. -/
theorem pyDict_values_const (l : List (String × String)) (v : String)
    (hl : ∀ p ∈ l, p.2 = v) : ∀ p ∈ pyDict l, p.2 = v :=
  foldl_pyDictInsert_values l [] v (by simp) hl

/-- C3: the snapshot used for idempotency filtering is the one read from
the target course before the migration-creation POST; every surviving item
has a normalised title absent from that snapshot; and when every
substring-matching listed item's normalised title is already in the
snapshot (an unchanged target), the run sends an empty payload, never
issues the trigger PUT, and keeps no surviving items. -/
theorem migration_snapshot_idempotency (env : MigEnv) (m : String) (dry nw : Bool)
    (res : MigResult) (h : import_selected_rubrics env m dry nw = Except.ok res) :
    res.snapshot = snapshotOf env.targetRubricsBefore ∧
    (∀ it ∈ res.newRubrics, pyLower (pyStrip it.title) ∉ res.snapshot) ∧
    ((∀ it ∈ env.items, strContains (pyLower m) (pyLower it.title) = true →
        pyLower (pyStrip it.title) ∈ snapshotOf env.targetRubricsBefore) →
      res.copyParams = [] ∧ res.triggerCalled = false ∧ res.newRubrics = []) := by
  obtain ⟨hsnap, hnotrig, htrig, hsub⟩ := import_ok_fields env m dry nw res h
  refine ⟨hsnap, ?_, ?_⟩
  · intro it hit
    have hthis := hsub it hit
    unfold newItems at hthis
    rw [hsnap]
    have hmem := List.mem_filter.mp hthis
    simpa using hmem.2
  · intro hall
    have hempty :
        newItems (snapshotOf env.targetRubricsBefore) (matchingItems m env.items) = [] := by
      unfold newItems
      rw [List.filter_eq_nil_iff]
      intro it hit
      unfold matchingItems at hit
      have hm := List.mem_filter.mp hit
      have hin := hall it hm.1 hm.2
      simp [hin]
    have hnil : res.newRubrics = [] := by
      rw [List.eq_nil_iff_forall_not_mem]
      intro it hit
      have := hsub it hit
      rw [hempty] at this
      simp at this
    have htc : res.triggerCalled = false := by
      cases htcv : res.triggerCalled with
      | false => rfl
      | true =>
        obtain ⟨-, -, hne, -⟩ := htrig htcv
        exact absurd hnil hne
    exact ⟨hnotrig htc, htc, hnil⟩

/-- Witness for C3: a target that already holds
"Undergraduate Essay Rubric (2025/26)" and a source listing exactly that
rubric — the run ends with no payload, no trigger call and no surviving
items. -/
theorem migration_snapshot_idempotency_witness :
    import_selected_rubrics
        ⟨[⟨"Undergraduate Essay Rubric (2025/26)", 5⟩], [], true, true,
          [⟨"Undergraduate Essay Rubric (2025/26)", "copy_key_1"⟩], true, none, []⟩
        "2025" false false =
      Except.ok ⟨snapshotOf [⟨"Undergraduate Essay Rubric (2025/26)", 5⟩], [], [], false,
        MigOutcome.allExisting⟩ ∧
    ((MigResult.mk (snapshotOf [⟨"Undergraduate Essay Rubric (2025/26)", 5⟩]) [] [] false
        MigOutcome.allExisting).copyParams = [] ∧
      (MigResult.mk (snapshotOf [⟨"Undergraduate Essay Rubric (2025/26)", 5⟩]) [] [] false
        MigOutcome.allExisting).triggerCalled = false ∧
      (MigResult.mk (snapshotOf [⟨"Undergraduate Essay Rubric (2025/26)", 5⟩]) [] [] false
        MigOutcome.allExisting).newRubrics = []) := by
  refine ⟨rfl, ?_⟩
  exact (migration_snapshot_idempotency
    ⟨[⟨"Undergraduate Essay Rubric (2025/26)", 5⟩], [], true, true,
      [⟨"Undergraduate Essay Rubric (2025/26)", "copy_key_1"⟩], true, none, []⟩
    "2025" false false
    ⟨snapshotOf [⟨"Undergraduate Essay Rubric (2025/26)", 5⟩], [], [], false,
      MigOutcome.allExisting⟩ rfl).2.2 (by decide)

/-- C6: with the create and list steps succeeding, the three empty-result
cases (no items listed, no substring matches, all matches already in the
snapshot) end in three distinct benign outcomes, none of which issues the
trigger PUT; and whenever the trigger PUT is issued the surviving set is
the substring-matched items minus the already-existing ones, in that
order, and is non-empty. -/
theorem empty_selection_short_circuit (env : MigEnv) (m : String) (dry nw : Bool)
    (res : MigResult) (hc : env.createOk = true) (hl : env.listOk = true)
    (h : import_selected_rubrics env m dry nw = Except.ok res) :
    (env.items = [] → res.outcome = MigOutcome.noItems ∧ res.triggerCalled = false) ∧
    (env.items ≠ [] → matchingItems m env.items = [] →
      res.outcome = MigOutcome.noMatches ∧ res.triggerCalled = false) ∧
    (matchingItems m env.items ≠ [] →
      newItems (snapshotOf env.targetRubricsBefore) (matchingItems m env.items) = [] →
      res.outcome = MigOutcome.allExisting ∧ res.triggerCalled = false) ∧
    (res.triggerCalled = true →
      res.newRubrics =
        newItems (snapshotOf env.targetRubricsBefore) (matchingItems m env.items) ∧
      res.newRubrics ≠ []) ∧
    (MigOutcome.noItems ≠ MigOutcome.noMatches ∧
      MigOutcome.noMatches ≠ MigOutcome.allExisting ∧
      MigOutcome.noItems ≠ MigOutcome.allExisting) := by
  have hc' : ¬(env.createOk = false) := by simp [hc]
  have hl' : ¬(env.listOk = false) := by simp [hl]
  simp only [import_selected_rubrics, if_neg hc', if_neg hl'] at h
  split_ifs at h with h1 h2 h3 h4 h5 h6 h7 <;>
    (simp only [Except.ok.injEq] at h
     subst h
     refine ⟨?_, ?_, ?_, ?_, by decide, by decide, by decide⟩ <;>
       simp_all [matchingItems, newItems])

/-- Witness for C6: a source listing one rubric that fails the substring
filter — the run ends in the "no matches" outcome with no trigger call. -/
theorem empty_selection_short_circuit_witness :
    import_selected_rubrics ⟨[], [], true, true, [⟨"Alpha Rubric", "copy_key_1"⟩],
        true, none, []⟩ "2025" false false =
      Except.ok ⟨snapshotOf [], [], [], false, MigOutcome.noMatches⟩ ∧
    ((MigResult.mk (snapshotOf []) [] [] false MigOutcome.noMatches).outcome =
        MigOutcome.noMatches ∧
      (MigResult.mk (snapshotOf []) [] [] false MigOutcome.noMatches).triggerCalled = false) := by
  refine ⟨rfl, ?_⟩
  exact (empty_selection_short_circuit
    ⟨[], [], true, true, [⟨"Alpha Rubric", "copy_key_1"⟩], true, none, []⟩ "2025" false false
    ⟨snapshotOf [], [], [], false, MigOutcome.noMatches⟩ rfl rfl rfl).2.1
    (by decide) (by decide)

/-- The decision loop computes the same log rows under preview as live,
and issues no POST under preview. -/
theorem runAssignments_preview (sis : String) (rubrics : List Rubric) (t : Int)
    (as : List Assignment) :
    (runAssignments sis rubrics t true as).1 = (runAssignments sis rubrics t false as).1 ∧
    (runAssignments sis rubrics t true as).2 = [] := by
  induction as with
  | nil => exact ⟨rfl, rfl⟩
  | cons a rest ih =>
    obtain ⟨h1, h2⟩ := ih
    simp only [runAssignments]
    cases hp : processAssignment sis rubrics t a with
    | none => simp only [hp]; exact ⟨h1, h2⟩
    | some row =>
      simp only [hp]
      rcases hm : rubricMap rubrics row.suggested_rubric with _ | rid <;>
        split_ifs with hd <;> simp [hm, h1, h2]

set_option maxHeartbeats 1600000 in
/-- A dry migration run agrees with a live one on everything computed
before the trigger step: the snapshot and the surviving item list. -/
theorem import_dry_agrees (env : MigEnv) (m : String) (nw : Bool) :
    (import_selected_rubrics env m true nw).map MigResult.newRubrics =
      (import_selected_rubrics env m false nw).map MigResult.newRubrics ∧
    (import_selected_rubrics env m true nw).map MigResult.snapshot =
      (import_selected_rubrics env m false nw).map MigResult.snapshot := by
  constructor <;>
    (simp only [import_selected_rubrics]
     split_ifs <;> simp_all [Except.map])

/-- C7: preview mode is a pure flag — `apply_rubric` in dry-run reports
success unconditionally and issues no POST; the decision loop logs
identical rows in preview and live mode and issues no POST in preview;
a dry migration run never issues the trigger PUT and sends no payload;
and the migration's read and filter results (snapshot and surviving
items) are identical between a dry and a live run. -/
theorem preview_mode_is_pure :
    (∀ postOk : Bool, apply_rubric postOk true = (true, false)) ∧
    (∀ (sis : String) (rubrics : List Rubric) (t : Int) (as : List Assignment),
      (runAssignments sis rubrics t true as).1 = (runAssignments sis rubrics t false as).1 ∧
      (runAssignments sis rubrics t true as).2 = []) ∧
    (∀ (env : MigEnv) (m : String) (nw : Bool) (res : MigResult),
      import_selected_rubrics env m true nw = Except.ok res →
        res.triggerCalled = false ∧ res.copyParams = []) ∧
    (∀ (env : MigEnv) (m : String) (nw : Bool),
      (import_selected_rubrics env m true nw).map MigResult.newRubrics =
        (import_selected_rubrics env m false nw).map MigResult.newRubrics ∧
      (import_selected_rubrics env m true nw).map MigResult.snapshot =
        (import_selected_rubrics env m false nw).map MigResult.snapshot) := by
  refine ⟨fun postOk => rfl, runAssignments_preview, ?_, ?_⟩
  · intro env m nw res h
    obtain ⟨-, hnotrig, htrig, -⟩ := import_ok_fields env m true nw res h
    have htc : res.triggerCalled = false := by
      cases htcv : res.triggerCalled with
      | false => rfl
      | true => exact absurd (htrig htcv).1 (by simp)
    exact ⟨htc, hnotrig htc⟩
  · exact import_dry_agrees

/-- Witness for C7: a dry run over a source item that would otherwise be
imported reports no trigger call and an empty payload. -/
theorem preview_mode_is_pure_witness :
    (MigResult.mk (snapshotOf []) [⟨"Alpha Rubric 2025", "copy_key_1"⟩] [] false
        MigOutcome.dryRunStop).triggerCalled = false ∧
    (MigResult.mk (snapshotOf []) [⟨"Alpha Rubric 2025", "copy_key_1"⟩] [] false
        MigOutcome.dryRunStop).copyParams = [] :=
  preview_mode_is_pure.2.2.1
    ⟨[], [], true, true, [⟨"Alpha Rubric 2025", "copy_key_1"⟩], true, none, []⟩
    "2025" true
    ⟨snapshotOf [], [⟨"Alpha Rubric 2025", "copy_key_1"⟩], [], false, MigOutcome.dryRunStop⟩
    rfl

/-- C8: a transport failure on the migration item listing propagates as an
uncaught exception out of `import_selected_rubrics` and aborts the whole
batch (no later course is processed), while a course-lookup failure, a
migration-create failure and a trigger failure each let the batch continue
with the next course. -/
theorem list_failure_halts_batch (m : String) (dry nw : Bool) (env : MigEnv)
    (rest : List (Option MigEnv)) :
    (env.createOk = true → env.listOk = false →
      import_selected_rubrics env m dry nw = Except.error () ∧
      runBatch m dry nw (some env :: rest) = Except.error ()) ∧
    (env.createOk = false →
      runBatch m dry nw (some env :: rest) =
        (runBatch m dry nw rest).map (fun l =>
          some ⟨snapshotOf env.targetRubricsBefore, [], [], false,
            MigOutcome.createFailed⟩ :: l)) ∧
    (runBatch m dry nw (none :: rest) =
      (runBatch m dry nw rest).map (fun l => none :: l)) ∧
    (env.createOk = true → env.listOk = true → env.triggerOk = false → dry = false →
      env.items ≠ [] → matchingItems m env.items ≠ [] →
      newItems (snapshotOf env.targetRubricsBefore) (matchingItems m env.items) ≠ [] →
      runBatch m dry nw (some env :: rest) =
        (runBatch m dry nw rest).map (fun l =>
          some ⟨snapshotOf env.targetRubricsBefore,
            newItems (snapshotOf env.targetRubricsBefore) (matchingItems m env.items),
            copyParamsOf (newItems (snapshotOf env.targetRubricsBefore)
              (matchingItems m env.items)),
            true, MigOutcome.triggerFailed⟩ :: l)) := by
  refine ⟨?_, ?_, ?_, ?_⟩
  · intro hc hl
    have hc' : ¬(env.createOk = false) := by simp [hc]
    have himp : import_selected_rubrics env m dry nw = Except.error () := by
      simp only [import_selected_rubrics, if_neg hc', if_pos hl]
    refine ⟨himp, ?_⟩
    simp only [runBatch, himp]
  · intro hc
    have himp : import_selected_rubrics env m dry nw =
        Except.ok ⟨snapshotOf env.targetRubricsBefore, [], [], false,
          MigOutcome.createFailed⟩ := by
      simp only [import_selected_rubrics, if_pos hc]
    simp only [runBatch, himp]
  · simp only [runBatch]
  · intro hc hl ht hdry hitems hmatch hnew
    subst hdry
    have hc' : ¬(env.createOk = false) := by simp [hc]
    have hl' : ¬(env.listOk = false) := by simp [hl]
    have hd' : ¬(false = true) := by simp
    have himp : import_selected_rubrics env m false nw =
        Except.ok ⟨snapshotOf env.targetRubricsBefore,
          newItems (snapshotOf env.targetRubricsBefore) (matchingItems m env.items),
          copyParamsOf (newItems (snapshotOf env.targetRubricsBefore)
            (matchingItems m env.items)),
          true, MigOutcome.triggerFailed⟩ := by
      simp only [import_selected_rubrics, if_neg hc', if_neg hl', if_neg hitems,
        if_neg hmatch, if_neg hnew, if_neg hd', if_pos ht]
    simp only [runBatch, himp]

/-- Witness for C8 at a concrete input: a batch whose only course fails the
item-listing call halts with the propagated exception. -/
theorem list_failure_halts_batch_witness :
    runBatch "2025" false false [some ⟨[], [], true, false, [], true, none, []⟩] =
      Except.error () :=
  ((list_failure_halts_batch "2025" false false ⟨[], [], true, false, [], true, none, []⟩
    []).1 rfl rfl).2

/-- C9 (amended): the copy-parameter payload submitted by the trigger step
has exactly the surviving items' opaque property keys as its keys, and
every key maps to the flag "1" (the form encoding of the Python literal
`1`, marking the item for inclusion) — not to the string "include". -/
theorem trigger_payload_keys_and_values (env : MigEnv) (m : String) (nw : Bool)
    (res : MigResult) (h : import_selected_rubrics env m false nw = Except.ok res)
    (ht : res.triggerCalled = true) :
    (∀ k, k ∈ res.copyParams.map Prod.fst ↔ k ∈ res.newRubrics.map MigItem.property) ∧
    (∀ p ∈ res.copyParams, p.2 = "1") := by
  obtain ⟨-, -, htrig, -⟩ := import_ok_fields env m false nw res h
  obtain ⟨-, -, -, hcp⟩ := htrig ht
  constructor
  · intro k
    rw [hcp]
    unfold copyParamsOf
    rw [mem_pyDict_keys]
    simp [List.mem_map]
  · intro p hp
    rw [hcp] at hp
    refine pyDict_values_const _ "1" ?_ p hp
    intro q hq
    obtain ⟨it, -, he⟩ := List.mem_map.mp hq
    rw [← he]

/-- Witness for C9's amended claim at a concrete input. -/
theorem trigger_payload_keys_and_values_witness :
    ("copy_key_1" ∈ ([("copy_key_1", "1")] : List (String × String)).map Prod.fst ↔
      "copy_key_1" ∈ [MigItem.mk "Alpha Rubric 2025" "copy_key_1"].map MigItem.property) ∧
    (∀ p ∈ ([("copy_key_1", "1")] : List (String × String)), p.2 = "1") := by
  have h := trigger_payload_keys_and_values
    ⟨[], [], true, true, [⟨"Alpha Rubric 2025", "copy_key_1"⟩], true, none, []⟩
    "2025" true
    ⟨snapshotOf [], [⟨"Alpha Rubric 2025", "copy_key_1"⟩], [("copy_key_1", "1")], true,
      MigOutcome.firedForgot⟩
    rfl rfl
  exact ⟨h.1 "copy_key_1", h.2⟩

/-- Counterexample to C9 as stated: at a concrete input the payload value
submitted with the surviving item's key is the string "1" (the
form-encoded flag), not the string "include". -/
theorem trigger_payload_value_counterexample :
    (import_selected_rubrics
        ⟨[], [], true, true, [⟨"Alpha Rubric 2025", "copy_key_1"⟩], true, none, []⟩
        "2025" false true).map MigResult.copyParams =
      Except.ok [("copy_key_1", "1")] ∧ ("1" : String) ≠ "include" :=
  ⟨rfl, by decide⟩

/-- C1: the decision classifier (the inline logic of `main`,
`src/auto_assign_rubrics.py` lines 164-176): no best match ⇒ NO_MATCH;
best match present and current title empty ⇒ ADD; otherwise REPLACE
exactly when the word overlap between the current title and the best
match's title reaches the threshold (default 1), SKIP otherwise, the
overlap value being reported alongside. -/
theorem decision_classifier_cases (cur : String) (best : Option Rubric) (t : Int) :
    (best = none → classify cur best t = (Decision.NO_MATCH, 0)) ∧
    (∀ b, best = some b → cur = "" → classify cur best t = (Decision.ADD, 0)) ∧
    (∀ b, best = some b → cur ≠ "" → t ≤ (word_overlap cur b.title : Int) →
      classify cur best t = (Decision.REPLACE, word_overlap cur b.title)) ∧
    (∀ b, best = some b → cur ≠ "" → (word_overlap cur b.title : Int) < t →
      classify cur best t = (Decision.SKIP, word_overlap cur b.title)) := by
  refine ⟨?_, ?_, ?_, ?_⟩
  · intro h; subst h; rfl
  · intro b hb hc; subst hb; simp [classify, hc]
  · intro b hb hc hov; subst hb
    simp [classify, hc, hov]
  · intro b hb hc hov; subst hb
    simp [classify, hc, not_le_of_lt hov]

set_option maxHeartbeats 2000000 in
/-- Witness for C1 at a concrete input: current title "Old Essay Plan"
against suggestion "Undergraduate Essay Rubric" shares the token "essay",
so with the default threshold 1 the decision is REPLACE with overlap 1. -/
theorem decision_classifier_cases_witness :
    classify "Old Essay Plan" (some ⟨"Undergraduate Essay Rubric", 7⟩) 1 =
      (Decision.REPLACE, word_overlap "Old Essay Plan" "Undergraduate Essay Rubric") := by
  have hov : word_overlap "Old Essay Plan" "Undergraduate Essay Rubric" = 1 := by decide
  exact (decision_classifier_cases "Old Essay Plan" (some ⟨"Undergraduate Essay Rubric", 7⟩)
    1).2.2.1 _ rfl (by decide) (by rw [hov]; norm_num)

/-- C2: `guess_best_rubric` filters the pool by the level marker, returns
`none` exactly on an empty restricted pool, and otherwise returns a pool
member of maximal word-overlap score whose lowercased title is minimal
among the maximal-score members (ties broken by ascending case-insensitive
title order); in particular a zero-score member is still returned when the
restricted pool is non-empty. -/
theorem best_match_selection (name sis : String) (rubrics : List Rubric) :
    rubricPoolFor (levelOf sis) rubrics =
      rubrics.filter (fun r => strContains (levelMarker (levelOf sis)) r.title) ∧
    (guess_best_rubric name rubrics sis = none ↔
      rubricPoolFor (levelOf sis) rubrics = []) ∧
    (∀ r, guess_best_rubric name rubrics sis = some r →
      r ∈ rubricPoolFor (levelOf sis) rubrics ∧
      (∀ x ∈ rubricPoolFor (levelOf sis) rubrics,
        word_overlap name x.title ≤ word_overlap name r.title) ∧
      (∀ x ∈ rubricPoolFor (levelOf sis) rubrics,
        word_overlap name x.title = word_overlap name r.title →
          pyLower r.title ≤ pyLower x.title)) := by
  refine ⟨rfl, guess_best_eq_none_iff name rubrics sis, fun r h => ?_⟩
  obtain ⟨hm, hmin⟩ := guess_best_spec_some h
  exact ⟨hm, fun x hx => (not_keyLT_iff.mp (hmin x hx)).1,
    fun x hx he => (not_keyLT_iff.mp (hmin x hx)).2 he⟩

/-- Witness for C2: the tie-break scenario — "Postgraduate Essay Rubric"
and "Postgraduate Lab Rubric" both overlap "Essay 1" via at most one
token; the maximal-score rubric is returned and every pool member scores
no higher. -/
theorem best_match_selection_witness :
    (⟨"Postgraduate Essay Rubric", 10⟩ : Rubric) ∈
        rubricPoolFor (levelOf "MATH401-202526")
          [⟨"Postgraduate Lab Rubric", 11⟩, ⟨"Postgraduate Essay Rubric", 10⟩] ∧
      ∀ x ∈ rubricPoolFor (levelOf "MATH401-202526")
          [⟨"Postgraduate Lab Rubric", 11⟩, ⟨"Postgraduate Essay Rubric", 10⟩],
        word_overlap "Essay 1" x.title ≤
          word_overlap "Essay 1" (Rubric.mk "Postgraduate Essay Rubric" 10).title := by
  have h := (best_match_selection "Essay 1" "MATH401-202526"
      [⟨"Postgraduate Lab Rubric", 11⟩, ⟨"Postgraduate Essay Rubric", 10⟩]).2.2
      ⟨"Postgraduate Essay Rubric", 10⟩ (by decide)
  exact ⟨h.1, h.2.1⟩

/-- C4: the derived level is PG exactly when a code matching
`[A-Z]{4}(\d{3})-` is found in the SIS id and exceeds 400, UG otherwise;
code 401 restricts matching to Postgraduate-marked rubrics, code 400 and a
missing code restrict it to Undergraduate-marked rubrics. -/
theorem level_classification :
    (∀ sis : String, levelOf sis = Level.PG ↔
      ∃ c, numeric_code_from_sis sis = some c ∧ 400 < c) ∧
    levelMarker Level.PG = "Postgraduate" ∧
    levelMarker Level.UG = "Undergraduate" ∧
    (∀ sis name rubrics r, numeric_code_from_sis sis = some 401 →
      guess_best_rubric name rubrics sis = some r →
        strContains "Postgraduate" r.title = true) ∧
    (∀ sis name rubrics r, numeric_code_from_sis sis = some 400 →
      guess_best_rubric name rubrics sis = some r →
        strContains "Undergraduate" r.title = true) ∧
    (∀ sis name rubrics r, numeric_code_from_sis sis = none →
      guess_best_rubric name rubrics sis = some r →
        strContains "Undergraduate" r.title = true) := by
  have hlev : ∀ sis : String, levelOf sis = Level.PG ↔
      ∃ c, numeric_code_from_sis sis = some c ∧ 400 < c := by
    intro sis
    unfold levelOf
    cases hc : numeric_code_from_sis sis with
    | none => simp
    | some code =>
      simp only [Option.some.injEq]
      constructor
      · intro h
        by_cases hcond : (code != 0 && decide (400 < code)) = true
        · refine ⟨code, rfl, ?_⟩
          simp only [Bool.and_eq_true, bne_iff_ne, decide_eq_true_eq] at hcond
          exact hcond.2
        · rw [if_neg hcond] at h
          exact absurd h (by simp)
      · rintro ⟨c, hceq, hgt⟩
        subst hceq
        have hcond : (code != 0 && decide (400 < code)) = true := by
          simp only [Bool.and_eq_true, bne_iff_ne, decide_eq_true_eq]
          exact ⟨by omega, hgt⟩
        rw [if_pos hcond]
  have hmarker : ∀ sis name rubrics (r : Rubric),
      guess_best_rubric name rubrics sis = some r →
        strContains (levelMarker (levelOf sis)) r.title = true := by
    intro sis name rubrics r h
    have hm := (guess_best_spec_some h).1
    unfold rubricPoolFor at hm
    exact (List.mem_filter.mp hm).2
  refine ⟨hlev, rfl, rfl, ?_, ?_, ?_⟩
  · intro sis name rubrics r hc h
    have hpg : levelOf sis = Level.PG := (hlev sis).mpr ⟨401, hc, by omega⟩
    have hmk := hmarker sis name rubrics r h
    rw [hpg] at hmk
    exact hmk
  · intro sis name rubrics r hc h
    have hug : levelOf sis = Level.UG := by
      cases hl : levelOf sis with
      | UG => rfl
      | PG =>
        obtain ⟨c, hcc, hgt⟩ := (hlev sis).mp hl
        rw [hc] at hcc
        simp only [Option.some.injEq] at hcc
        omega
    have hmk := hmarker sis name rubrics r h
    rw [hug] at hmk
    exact hmk
  · intro sis name rubrics r hc h
    have hug : levelOf sis = Level.UG := by
      cases hl : levelOf sis with
      | UG => rfl
      | PG =>
        obtain ⟨c, hcc, hgt⟩ := (hlev sis).mp hl
        rw [hc] at hcc
        exact absurd hcc (by simp)
    have hmk := hmarker sis name rubrics r h
    rw [hug] at hmk
    exact hmk

/-- Witness for C4 at concrete inputs: "MATH401-202526" parses to code 401
and classifies PG; the returned rubric for it carries the Postgraduate
marker; "MATH400-202526" and a code-free id classify UG. -/
theorem level_classification_witness :
    levelOf "MATH401-202526" = Level.PG ∧
      levelOf "MATH400-202526" = Level.UG ∧
      levelOf "essay-course" = Level.UG ∧
      strContains "Postgraduate" (Rubric.mk "Postgraduate Essay Rubric" 10).title = true := by
  refine ⟨?_, by decide, by decide, ?_⟩
  · exact (level_classification.1 "MATH401-202526").mpr ⟨401, by decide, by omega⟩
  · exact level_classification.2.2.2.1 "MATH401-202526" "Essay 1"
      [⟨"Postgraduate Essay Rubric", 10⟩] ⟨"Postgraduate Essay Rubric", 10⟩
      (by decide) (by decide)

/-- C10: every row appended to the decision log carries a decision in
{ADD, REPLACE, SKIP} and a non-empty suggested rubric title; the
"NO MATCH" value is never written, because the no-candidate case
`continue`s before the append. -/
theorem decision_log_row_invariant (sis : String) (rubrics : List Rubric) (t : Int)
    (a : Assignment) (row : DecisionRow)
    (h : processAssignment sis rubrics t a = some row) :
    (row.decision = "ADD" ∨ row.decision = "REPLACE" ∨ row.decision = "SKIP") ∧
    row.decision ≠ "NO MATCH" ∧ row.suggested_rubric ≠ "" := by
  unfold processAssignment at h
  cases hb : guess_best_rubric a.name rubrics sis with
  | none => rw [hb] at h; exact absurd h (by simp)
  | some best =>
    rw [hb] at h
    have hmem := (guess_best_spec_some hb).1
    unfold rubricPoolFor at hmem
    have hmarker : strContains (levelMarker (levelOf sis)) best.title = true :=
      (List.mem_filter.mp hmem).2
    have hfalse : ∀ lv : Level, strContains (levelMarker lv) "" = false := by
      intro lv; cases lv <;> decide
    have htitle : best.title ≠ "" := by
      intro he
      rw [he, hfalse (levelOf sis)] at hmarker
      exact Bool.false_ne_true hmarker
    dsimp only [] at h
    split_ifs at h with hcur hov <;>
      (simp only [Option.some.injEq] at h
       subst h
       exact ⟨by simp, by simp, htitle⟩)

/-- Witness for C10 at a concrete input: an assignment with no current
rubric in a UG course with one Undergraduate rubric yields an ADD row with
a non-empty suggestion. -/
theorem decision_log_row_invariant_witness :
    processAssignment "ULMS101-202526" [⟨"Undergraduate Essay Rubric", 3⟩] 1
        ⟨"Essay 1", 55, none, none⟩ =
      some ⟨"ULMS101-202526", "Essay 1", "", "Undergraduate Essay Rubric", 0, "ADD"⟩ ∧
    (((DecisionRow.mk "ULMS101-202526" "Essay 1" "" "Undergraduate Essay Rubric" 0
          "ADD").decision = "ADD" ∨
        (DecisionRow.mk "ULMS101-202526" "Essay 1" "" "Undergraduate Essay Rubric" 0
          "ADD").decision = "REPLACE" ∨
        (DecisionRow.mk "ULMS101-202526" "Essay 1" "" "Undergraduate Essay Rubric" 0
          "ADD").decision = "SKIP") ∧
      (DecisionRow.mk "ULMS101-202526" "Essay 1" "" "Undergraduate Essay Rubric" 0
        "ADD").decision ≠ "NO MATCH" ∧
      (DecisionRow.mk "ULMS101-202526" "Essay 1" "" "Undergraduate Essay Rubric" 0
        "ADD").suggested_rubric ≠ "") :=
  ⟨by decide, decision_log_row_invariant "ULMS101-202526"
    [⟨"Undergraduate Essay Rubric", 3⟩] 1 ⟨"Essay 1", 55, none, none⟩
    ⟨"ULMS101-202526", "Essay 1", "", "Undergraduate Essay Rubric", 0, "ADD"⟩ (by decide)⟩

/-- C5: word overlap is the number of distinct lowercase alphabetic tokens
shared by the two strings (non-alphabetic characters separate tokens); it
is symmetric; and the spec's example evaluates to 1 via the shared token
"reflection". -/
theorem word_overlap_token_intersection :
    (∀ a b : String, word_overlap a b =
      ((alphaTokens (pyLower a).data).dedup.filter
        (fun w => w ∈ alphaTokens (pyLower b).data)).length) ∧
    (∀ a b : String, word_overlap a b = word_overlap b a) ∧
    word_overlap "Essay 1: Reflection" "Undergraduate Reflection Rubric" = 1 := by
  refine ⟨?_, ?_, by decide⟩
  · intro a b
    exact toFinset_inter_card_eq (alphaTokens (pyLower a).data) (alphaTokens (pyLower b).data)
  · intro a b
    unfold word_overlap
    rw [Finset.inter_comm]
